import Mathlib

/-!
Shallow embedding of `src/app.py` (Tacloban City coastal vulnerability
viewer).  Python floats are modelled as rationals, Python dicts as
association lists, and fallible Python code (KeyError, ValueError,
AttributeError, file errors) as `Except String`.
-/

instance {ε α : Type _} [DecidableEq ε] [DecidableEq α] :
    DecidableEq (Except ε α) := fun x y =>
  match x, y with
  | Except.ok a, Except.ok b => decidable_of_iff (a = b) (by simp)
  | Except.ok _, Except.error _ => isFalse (by simp)
  | Except.error _, Except.ok _ => isFalse (by simp)
  | Except.error e, Except.error f => decidable_of_iff (e = f) (by simp)

namespace Tacloban

/-! ### Colors (the five strings returned by `get_color`) -/

inductive Color where
  | red
  | orange
  | yellow
  | green
  | blue
  deriving DecidableEq, Repr

/-- The literal Python string for each color, as passed to folium. -/
def Color.pyName : Color → String
  | .red => "red"
  | .orange => "orange"
  | .yellow => "yellow"
  | .green => "green"
  | .blue => "blue"

/-- Position of a color in the severity order red < orange < yellow < green < blue
(red = highest vulnerability). -/
def Color.severityRank : Color → ℕ
  | .red => 0
  | .orange => 1
  | .yellow => 2
  | .green => 3
  | .blue => 4

/-! ### CVI logic (`src/app.py` lines 22-42) -/

/-- Floor of a rational, computed directly on numerator and denominator so
that concrete instances evaluate inside the kernel. -/
def ratFloor (q : ℚ) : ℤ := Int.fdiv q.num q.den

/-- Python `round(q, 2)` on an exact value: round to the nearest multiple of
1/100, ties to even (banker's rounding), as Python's `round` does. -/
def roundHalfEven (q : ℚ) : ℤ :=
  let f : ℤ := ratFloor q
  let r : ℚ := q - f
  if r < 1 / 2 then f
  else if 1 / 2 < r then f + 1
  else if f % 2 = 0 then f else f + 1

/-- `round(x, 2)`: two-decimal rounding. -/
def round2 (q : ℚ) : ℚ := (roundHalfEven (q * 100) : ℚ) / 100

/-- One sub-assessment object: `{"score": ..., "description": ...}`. -/
structure SubAssessment where
  score : ℚ
  description : String
  deriving DecidableEq, Repr

/-- A landmark record as loaded from JSON.  The three sub-assessment keys and
the `images` key may be absent (`none`), as nothing validates them at load:
dict access on a missing key raises KeyError, modelled via `Option`. -/
structure RawLandmark where
  name : String
  geomorphology : Option SubAssessment
  natural_buffers : Option SubAssessment
  engineering_structures : Option SubAssessment
  images : Option (List String)
  deriving DecidableEq, Repr

/-- `compute_cvi` (lines 22-30): mean of the three scores rounded to two
decimals; accessing a missing key raises KeyError. -/
def compute_cvi (l : RawLandmark) : Except String ℚ :=
  match l.geomorphology with
  | none => Except.error "KeyError: geomorphology"
  | some g =>
    match l.natural_buffers with
    | none => Except.error "KeyError: natural_buffers"
    | some n =>
      match l.engineering_structures with
      | none => Except.error "KeyError: engineering_structures"
      | some e => Except.ok (round2 ((g.score + n.score + e.score) / 3))

/-- `get_color` (lines 32-42). -/
def get_color (cvi : ℚ) : Color :=
  if cvi ≤ 1 then Color.red
  else if cvi ≤ 2 then Color.orange
  else if cvi ≤ 3 then Color.yellow
  else if cvi ≤ 4 then Color.green
  else Color.blue

/-! ### KML loading (`src/app.py` lines 47-66) -/

/-- Numeric value of a digit string (assumes all digits). -/
def natFromDigits (cs : List Char) : ℕ :=
  cs.foldl (fun acc c => acc * 10 + (c.toNat - 48)) 0

/-- Python `float()` on an unsigned decimal literal: digits with an optional
single decimal point, at least one digit.  (A subset of what `float` accepts:
the coordinate files only hold plain decimals.) -/
def parseUnsignedFloat (cs : List Char) : Option ℚ :=
  let intPart := cs.takeWhile (fun c => c ≠ '.')
  match cs.dropWhile (fun c => c ≠ '.') with
  | [] =>
    if intPart ≠ [] ∧ intPart.all Char.isDigit then
      some (natFromDigits intPart : ℚ)
    else none
  | _ :: fracPart =>
    if (intPart ≠ [] ∨ fracPart ≠ []) ∧ intPart.all Char.isDigit ∧
        fracPart.all Char.isDigit then
      some ((natFromDigits intPart : ℚ) +
        (natFromDigits fracPart : ℚ) / (10 : ℚ) ^ fracPart.length)
    else none

/-- Python `float()` with an optional leading minus sign. -/
def parseFloat (s : String) : Option ℚ :=
  match s.toList with
  | '-' :: rest => (parseUnsignedFloat rest).map Neg.neg
  | cs => parseUnsignedFloat cs

/-- Lines 58-60: `lon, lat, _ = map(float, c.split(","))` followed by
`coords.append([lat, lon])`.  Succeeds exactly when the entry has three
comma-separated components that all convert to float; otherwise a
ValueError (bad float or wrong unpack count) is raised. -/
def parseCoordEntry (c : String) : Except String (ℚ × ℚ) :=
  match (c.splitOn ",").map parseFloat with
  | [some lon, some lat, some _alt] => Except.ok (lat, lon)
  | _ => Except.error "ValueError"

/-- Python `str.split()` with no argument: split on whitespace runs,
discarding empty pieces. -/
def pySplitWs (s : String) : List String :=
  (s.split fun c => c.isWhitespace).filter (fun t => t ≠ "")

/-- Lines 57-61: the `for c in coords_text.split()` loop building `coords`,
stopping at the first entry that raises. -/
def parseRing : List String → Except String (List (ℚ × ℚ))
  | [] => Except.ok []
  | c :: rest =>
    match parseCoordEntry c with
    | Except.error e => Except.error e
    | Except.ok p =>
      match parseRing rest with
      | Except.error e => Except.error e
      | Except.ok ps => Except.ok (p :: ps)

/-- A `<Placemark>` element: `find` returns `None` (here `none`) when the
child element is missing, and `.text` on `None` raises AttributeError. -/
structure Placemark where
  name : Option String
  coordinates : Option String
  deriving DecidableEq, Repr

/-- `load_kml` (lines 47-64) over the placemark list of the document:
builds the name → coordinate-ring mapping in document order. -/
def load_kml : List Placemark → Except String (List (String × List (ℚ × ℚ)))
  | [] => Except.ok []
  | p :: rest =>
    match p.name with
    | none => Except.error "AttributeError: NoneType has no attribute text"
    | some nm =>
      match p.coordinates with
      | none => Except.error "AttributeError: NoneType has no attribute text"
      | some ctext =>
        match parseRing (pySplitWs ctext.trim) with
        | Except.error e => Except.error e
        | Except.ok ring =>
          match load_kml rest with
          | Except.error e => Except.error e
          | Except.ok polys => Except.ok ((nm, ring) :: polys)

/-! ### Landmark loading (`src/app.py` lines 16-17) -/

/-- Outcome of opening and JSON-parsing `landmarks.json`: the file can be
missing (FileNotFoundError), fail to parse (JSONDecodeError), or yield a
parsed document. -/
inductive FileResult (α : Type) where
  | missing
  | malformed
  | parsed (v : α)
  deriving DecidableEq, Repr

/-- The parsed top-level JSON object: the `"landmarks"` key may be absent. -/
structure LandmarksDoc where
  landmarks : Option (List RawLandmark)
  deriving DecidableEq, Repr

/-- Lines 16-17: `json.load(f)["landmarks"]`.  No validation of the records
themselves happens here. -/
def loadLandmarks : FileResult LandmarksDoc → Except String (List RawLandmark)
  | FileResult.missing => Except.error "FileNotFoundError"
  | FileResult.malformed => Except.error "JSONDecodeError"
  | FileResult.parsed doc =>
    match doc.landmarks with
    | none => Except.error "KeyError: landmarks"
    | some ls => Except.ok ls

/-! ### Map rendering (`src/app.py` lines 84-128) -/

/-- The arguments of one `folium.Polygon(...)` call (lines 121-128). -/
structure Polygon where
  locations : List (ℚ × ℚ)
  fill : Bool
  fill_color : String
  fill_opacity : ℚ
  color : String
  weight : ℕ
  deriving DecidableEq, Repr

/-- Lines 114-128: the polygon-drawing loop over all landmarks, in order.
Each iteration computes the CVI (KeyError on a missing field), looks the
name up in `kml_polygons` (KeyError on an unmatched name), and emits one
polygon with fixed opacity 0.6, black outline, and weight 4 for the
selected landmark and 1 otherwise. -/
def renderPolygons (polys : List (String × List (ℚ × ℚ))) (sel : Option String) :
    List RawLandmark → Except String (List Polygon)
  | [] => Except.ok []
  | l :: rest =>
    match compute_cvi l with
    | Except.error e => Except.error e
    | Except.ok cvi =>
      match List.lookup l.name polys with
      | none => Except.error ("KeyError: " ++ l.name)
      | some coords =>
        match renderPolygons polys sel rest with
        | Except.error e => Except.error e
        | Except.ok ps =>
          Except.ok ({ locations := coords,
                       fill := true,
                       fill_color := (get_color cvi).pyName,
                       fill_opacity := 6 / 10,
                       color := "black",
                       weight := if some l.name = sel then 4 else 1 } :: ps)

/-- Line 85: the fixed Tacloban City overview coordinate `[11.230, 125.003]`. -/
def defaultCenter : ℚ × ℚ := (11230 / 1000, 125003 / 1000)

/-- Line 86: the default zoom `13.5`. -/
def defaultZoom : ℚ := 27 / 2

/-- Line 103: the zoom used when a landmark is selected. -/
def selectedZoomLevel : ℚ := 15

/-- Lines 84-103: map center and zoom.  With no selection the fixed default
pair is used; with a selection the code finds the landmark (StopIteration
if absent), computes its CVI and color, looks up its coordinates (KeyError
if unmatched) and centers on the mean latitude and mean longitude
(ZeroDivisionError on an empty ring). -/
def mapView (landmarks : List RawLandmark)
    (polys : List (String × List (ℚ × ℚ))) :
    Option String → Except String ((ℚ × ℚ) × ℚ)
  | none => Except.ok (defaultCenter, defaultZoom)
  | some nm =>
    match landmarks.find? (fun l => l.name == nm) with
    | none => Except.error "StopIteration"
    | some sl =>
      match compute_cvi sl with
      | Except.error e => Except.error e
      | Except.ok _cvi =>
        match List.lookup nm polys with
        | none => Except.error ("KeyError: " ++ nm)
        | some coords =>
          if coords = [] then Except.error "ZeroDivisionError"
          else Except.ok
            (((coords.map Prod.fst).sum / (coords.length : ℚ),
              (coords.map Prod.snd).sum / (coords.length : ℚ)),
             selectedZoomLevel)

/-- The centroid as the spec words it: the arithmetic mean of the latitudes
paired with the arithmetic mean of the longitudes. -/
def specCentroid (coords : List (ℚ × ℚ)) : ℚ × ℚ :=
  ((coords.map Prod.fst).sum / (coords.length : ℚ),
   (coords.map Prod.snd).sum / (coords.length : ℚ))

/-! ### Image gallery (`src/app.py` lines 190-205) -/

/-- What the gallery section renders for a selected landmark: either the
warning notice, or the grid cells as (column index, image path, caption)
triples in load order. -/
inductive GalleryView where
  | notice (msg : String)
  | grid (cells : List (ℕ × String × String))
  deriving DecidableEq, Repr

/-- Lines 193-205: `selected_landmark.get("images", [])`, the empty-list
warning, and the `st.columns(3)` loop placing image `idx` in column
`idx % 3` with the landmark name as caption. -/
def renderGallery (l : RawLandmark) (selected_name : String) : GalleryView :=
  let images := l.images.getD []
  if images = [] then
    GalleryView.notice "No images available for this landmark."
  else
    GalleryView.grid (images.enum.map (fun ie => (ie.1 % 3, ie.2, selected_name)))

/-! ### Helper lemmas -/

/-- A coordinate entry whose three comma-separated components all parse is
stored as (lat, lon). -/
theorem parseCoordEntry_eq_of_map (c : String) (lon lat alt : ℚ)
    (h : (c.splitOn ",").map parseFloat = [some lon, some lat, some alt]) :
    parseCoordEntry c = Except.ok (lat, lon) := by
  unfold parseCoordEntry
  rw [h]

/-- Positional description of a successfully parsed coordinate ring. -/
theorem parseRing_ok_getElem (entries : List String) (ring : List (ℚ × ℚ))
    (h : parseRing entries = Except.ok ring) :
    ∀ (i : ℕ) (c : String) (lon lat alt : ℚ), entries[i]? = some c →
      (c.splitOn ",").map parseFloat = [some lon, some lat, some alt] →
      ring[i]? = some (lat, lon) := by
  induction entries generalizing ring with
  | nil =>
    intro i c lon lat alt hc _hm
    simp at hc
  | cons c0 rest ih =>
    intro i c lon lat alt hc hm
    rw [parseRing] at h
    cases h0 : parseCoordEntry c0 with
    | error e => rw [h0] at h; simp at h
    | ok p =>
      rw [h0] at h
      cases hr : parseRing rest with
      | error e => rw [hr] at h; simp at h
      | ok ps =>
        rw [hr] at h
        simp only [Except.ok.injEq] at h
        subst h
        cases i with
        | zero =>
          simp only [List.getElem?_cons_zero, Option.some.injEq] at hc
          subst hc
          have hp : parseCoordEntry c0 = Except.ok (lat, lon) :=
            parseCoordEntry_eq_of_map c0 lon lat alt hm
          rw [h0] at hp
          simp only [Except.ok.injEq] at hp
          simp [hp]
        | succ j =>
          simp only [List.getElem?_cons_succ] at hc ⊢
          exact ih ps hr j c lon lat alt hc hm

/-- Structural description of a successful polygon-rendering run. -/
theorem renderPolygons_ok_spec (polys : List (String × List (ℚ × ℚ)))
    (sel : Option String) :
    ∀ (ls : List RawLandmark) (out : List Polygon),
      renderPolygons polys sel ls = Except.ok out →
      out.length = ls.length ∧
      ∀ (i : ℕ) (l : RawLandmark), ls[i]? = some l →
        ∃ (cvi : ℚ) (coords : List (ℚ × ℚ)),
          compute_cvi l = Except.ok cvi ∧
          List.lookup l.name polys = some coords ∧
          out[i]? = some { locations := coords, fill := true,
                           fill_color := (get_color cvi).pyName,
                           fill_opacity := 6 / 10, color := "black",
                           weight := if some l.name = sel then 4 else 1 } := by
  intro ls
  induction ls with
  | nil =>
    intro out h
    rw [renderPolygons] at h
    simp only [Except.ok.injEq] at h
    subst h
    refine ⟨rfl, ?_⟩
    intro i l hl
    simp at hl
  | cons l rest ih =>
    intro out h
    rw [renderPolygons] at h
    cases h1 : compute_cvi l with
    | error e => rw [h1] at h; simp at h
    | ok cvi =>
      rw [h1] at h
      cases h2 : List.lookup l.name polys with
      | none => rw [h2] at h; simp at h
      | some coords =>
        rw [h2] at h
        cases h3 : renderPolygons polys sel rest with
        | error e => rw [h3] at h; simp at h
        | ok ps =>
          rw [h3] at h
          simp only [Except.ok.injEq] at h
          subst h
          obtain ⟨hlen, hspec⟩ := ih ps h3
          constructor
          · simp [hlen]
          · intro i l' hi
            cases i with
            | zero =>
              simp only [List.getElem?_cons_zero, Option.some.injEq] at hi
              subst hi
              exact ⟨cvi, coords, h1, h2, by simp⟩
            | succ j =>
              simp only [List.getElem?_cons_succ] at hi ⊢
              exact hspec j l' hi

/-! ### Concrete sample data -/

/-- A landmark record with scores (4, 3, 5) and all fields present. -/
def sample435 : RawLandmark :=
  { name := "Sample",
    geomorphology := some { score := 4, description := "" },
    natural_buffers := some { score := 3, description := "" },
    engineering_structures := some { score := 5, description := "" },
    images := none }

/-- A boundary ring for the sample landmark. -/
def sampleRing : List (ℚ × ℚ) := [(1, 1), (2, 2)]

/-- A boundary store holding exactly the sample landmark's ring. -/
def samplePolys : List (String × List (ℚ × ℚ)) := [("Sample", sampleRing)]

/-- A landmark record whose name has no boundary in `samplePolys`. -/
def ghostLandmark : RawLandmark :=
  { name := "Ghost",
    geomorphology := some { score := 1, description := "" },
    natural_buffers := some { score := 1, description := "" },
    engineering_structures := some { score := 1, description := "" },
    images := none }

/-- A landmark record lacking the geomorphology sub-assessment. -/
def noGeoLandmark : RawLandmark :=
  { name := "NoGeo",
    geomorphology := none,
    natural_buffers := some { score := 1, description := "" },
    engineering_structures := some { score := 1, description := "" },
    images := none }

/-! ### C1, C2, C10: CVI logic -/

/-- C1: for every landmark record with the three sub-assessment fields
present, `compute_cvi` returns the arithmetic mean of the geomorphology,
natural_buffers and engineering_structures scores rounded to two decimal
places; in particular scores (4, 3, 5) yield index 4.0. -/
theorem compute_cvi_is_rounded_mean (l : RawLandmark) (g n e : SubAssessment)
    (hg : l.geomorphology = some g) (hn : l.natural_buffers = some n)
    (he : l.engineering_structures = some e) :
    compute_cvi l = Except.ok (round2 ((g.score + n.score + e.score) / 3)) ∧
    round2 (((4 : ℚ) + 3 + 5) / 3) = 4 := by
  constructor
  · simp [compute_cvi, hg, hn, he]
  · with_unfolding_all decide

/-- Witness for C1 at the concrete record with scores (4, 3, 5). -/
theorem compute_cvi_is_rounded_mean_witness :
    compute_cvi sample435 = Except.ok (round2 (((4 : ℚ) + 3 + 5) / 3)) ∧
    round2 (((4 : ℚ) + 3 + 5) / 3) = 4 :=
  compute_cvi_is_rounded_mean sample435
    { score := 4, description := "" }
    { score := 3, description := "" }
    { score := 5, description := "" }
    rfl rfl rfl

/-- C2: `get_color` assigns one of five ordered buckets by closed upper
bounds — index ≤ 1.0 gives red, ≤ 2.0 orange, ≤ 3.0 yellow, ≤ 4.0 green,
otherwise blue — each boundary value falling in the more severe bucket;
in particular `get_color` maps 1.0 to red, 1.01 to orange, 2.0 to orange,
4.0 to green and 4.01 to blue. -/
theorem get_color_thresholds :
    (∀ i : ℚ, i ≤ 1 → get_color i = Color.red) ∧
    (∀ i : ℚ, 1 < i → i ≤ 2 → get_color i = Color.orange) ∧
    (∀ i : ℚ, 2 < i → i ≤ 3 → get_color i = Color.yellow) ∧
    (∀ i : ℚ, 3 < i → i ≤ 4 → get_color i = Color.green) ∧
    (∀ i : ℚ, 4 < i → get_color i = Color.blue) ∧
    get_color 1 = Color.red ∧
    get_color (101 / 100) = Color.orange ∧
    get_color 2 = Color.orange ∧
    get_color 4 = Color.green ∧
    get_color (401 / 100) = Color.blue := by
  refine ⟨?_, ?_, ?_, ?_, ?_, ?_, ?_, ?_, ?_, ?_⟩
  · intro i h
    unfold get_color
    split_ifs <;> first | rfl | linarith
  · intro i h1 h2
    unfold get_color
    split_ifs <;> first | rfl | linarith
  · intro i h1 h2
    unfold get_color
    split_ifs <;> first | rfl | linarith
  · intro i h1 h2
    unfold get_color
    split_ifs <;> first | rfl | linarith
  · intro i h
    unfold get_color
    split_ifs <;> first | rfl | linarith
  · with_unfolding_all decide
  · with_unfolding_all decide
  · with_unfolding_all decide
  · with_unfolding_all decide
  · with_unfolding_all decide

/-- Witness for C2, applying the bucket clauses at 0.5, 1.5, 2.5 and 3.5. -/
theorem get_color_thresholds_witness :
    get_color (1 / 2) = Color.red ∧
    get_color (3 / 2) = Color.orange ∧
    get_color (5 / 2) = Color.yellow ∧
    get_color (7 / 2) = Color.green ∧
    get_color (9 / 2) = Color.blue :=
  ⟨get_color_thresholds.1 (1 / 2) (by with_unfolding_all decide),
   get_color_thresholds.2.1 (3 / 2) (by with_unfolding_all decide)
     (by with_unfolding_all decide),
   get_color_thresholds.2.2.1 (5 / 2) (by with_unfolding_all decide)
     (by with_unfolding_all decide),
   get_color_thresholds.2.2.2.1 (7 / 2) (by with_unfolding_all decide)
     (by with_unfolding_all decide),
   get_color_thresholds.2.2.2.2.1 (9 / 2) (by with_unfolding_all decide)⟩

/-- C10: `get_color` is total — it returns exactly one of the five colors
for every rational index — and monotone with respect to the severity order
red < orange < yellow < green < blue. -/
theorem get_color_total_and_monotone :
    (∀ i : ℚ, get_color i = Color.red ∨ get_color i = Color.orange ∨
      get_color i = Color.yellow ∨ get_color i = Color.green ∨
      get_color i = Color.blue) ∧
    (∀ i1 i2 : ℚ, i1 ≤ i2 →
      (get_color i1).severityRank ≤ (get_color i2).severityRank) := by
  constructor
  · intro i
    unfold get_color
    split_ifs <;> simp
  · intro i1 i2 h
    unfold get_color
    split_ifs <;> simp [Color.severityRank] <;> linarith

/-- Witness for C10: monotonicity applied at the pair (1, 2). -/
theorem get_color_total_and_monotone_witness :
    (get_color 1).severityRank ≤ (get_color 2).severityRank :=
  get_color_total_and_monotone.2 1 2 (by with_unfolding_all decide)

/-! ### C3, C7: coordinate parsing -/

/-- C3: every well-formed coordinate triple string in a ring is stored with
the order swapped from the source's (lon, lat) to (lat, lon) and the
altitude discarded; in particular the triple "125.0,11.2,0" is stored as
the pair (11.2, 125.0). -/
theorem ring_entry_swapped_altitude_dropped (entries : List String)
    (ring : List (ℚ × ℚ)) (i : ℕ) (c : String) (lon lat alt : ℚ)
    (hring : parseRing entries = Except.ok ring)
    (hc : entries[i]? = some c)
    (hm : (c.splitOn ",").map parseFloat = [some lon, some lat, some alt]) :
    ring[i]? = some (lat, lon) ∧
    parseCoordEntry "125.0,11.2,0" = Except.ok (112 / 10, 125) := by
  refine ⟨parseRing_ok_getElem entries ring hring i c lon lat alt hc hm, ?_⟩
  with_unfolding_all decide

/-- Witness for C3 at the one-entry ring "125.0,11.2,0". -/
theorem ring_entry_swapped_altitude_dropped_witness :
    (([(112 / 10, 125)] : List (ℚ × ℚ))[0]? = some (112 / 10, 125)) ∧
    parseCoordEntry "125.0,11.2,0" = Except.ok (112 / 10, 125) :=
  ring_entry_swapped_altitude_dropped ["125.0,11.2,0"] [(112 / 10, 125)] 0
    "125.0,11.2,0" 125 (112 / 10) 0
    (by with_unfolding_all decide)
    rfl
    (by with_unfolding_all decide)

/-- C7 counterexample: the entry "125.0,11.2" — a longitude and a latitude
with no altitude component — is rejected with a ValueError instead of being
parsed and stored. -/
theorem two_component_entry_rejected :
    parseCoordEntry "125.0,11.2" = Except.error "ValueError" := by
  with_unfolding_all decide

/-- C7 amended: the boundary loader requires exactly three comma-separated
components per coordinate entry: an entry with only a longitude and a
latitude fails with a ValueError from the three-way unpacking, while an
entry whose three components all convert to float succeeds and stores the
(lat, lon) pair. -/
theorem coord_entry_needs_three_components :
    (∀ c s1 s2 : String, c.splitOn "," = [s1, s2] →
      parseCoordEntry c = Except.error "ValueError") ∧
    (∀ (c : String) (lon lat alt : ℚ),
      (c.splitOn ",").map parseFloat = [some lon, some lat, some alt] →
      parseCoordEntry c = Except.ok (lat, lon)) := by
  constructor
  · intro c s1 s2 h
    unfold parseCoordEntry
    rw [h]
    simp only [List.map]
    cases parseFloat s1 <;> cases parseFloat s2 <;> rfl
  · intro c lon lat alt h
    exact parseCoordEntry_eq_of_map c lon lat alt h

/-- Witness for C7's amended claim at the entries "1,2" and "1,2,3". -/
theorem coord_entry_needs_three_components_witness :
    parseCoordEntry "1,2" = Except.error "ValueError" ∧
    parseCoordEntry "1,2,3" = Except.ok (2, 1) :=
  ⟨coord_entry_needs_three_components.1 "1,2" "1" "2"
     (by with_unfolding_all decide),
   coord_entry_needs_three_components.2 "1,2,3" 1 2 3
     (by with_unfolding_all decide)⟩

/-! ### C4, C5: load-time versus render-time errors -/

/-- C4 counterexample: loading a landmark set containing the name "Ghost"
with no matching boundary succeeds — there is no load-time check — and the
mismatch instead raises a KeyError inside the polygon-rendering loop. -/
theorem unmatched_name_load_succeeds :
    loadLandmarks (FileResult.parsed { landmarks := some [ghostLandmark] }) =
      Except.ok [ghostLandmark] ∧
    renderPolygons [] none [ghostLandmark] =
      Except.error "KeyError: Ghost" := by
  constructor
  · rfl
  · with_unfolding_all decide

/-- C4 amended: the landmark/boundary name match is enforced only at render
time: a successful polygon-rendering run implies every landmark name has a
boundary entry (so an unmatched name makes rendering fail), while loading a
landmark set never consults the boundary store and succeeds regardless. -/
theorem unmatched_boundary_fails_at_render :
    (∀ (ls : List RawLandmark) (polys : List (String × List (ℚ × ℚ)))
      (sel : Option String) (out : List Polygon),
      renderPolygons polys sel ls = Except.ok out →
      ∀ l ∈ ls, (List.lookup l.name polys).isSome) ∧
    (∀ ls : List RawLandmark,
      loadLandmarks (FileResult.parsed { landmarks := some ls }) =
        Except.ok ls) := by
  constructor
  · intro ls polys sel out h l hl
    obtain ⟨i, hi⟩ := List.getElem?_of_mem hl
    obtain ⟨cvi, coords, _, hc, _⟩ :=
      (renderPolygons_ok_spec polys sel ls out h).2 i l hi
    simp [hc]
  · intro ls
    rfl

/-- Witness for C4's amended claim on the sample store. -/
theorem unmatched_boundary_fails_at_render_witness :
    (List.lookup sample435.name samplePolys).isSome :=
  unmatched_boundary_fails_at_render.1 [sample435] samplePolys none
    [{ locations := sampleRing, fill := true, fill_color := "green",
       fill_opacity := 6 / 10, color := "black", weight := 1 }]
    (by with_unfolding_all decide)
    sample435 (by simp)

/-- C5 counterexample: a record lacking the geomorphology sub-assessment
field loads without error — `json.load(f)["landmarks"]` performs no record
validation — contradicting the claim that such a load fails with a
LoadError. -/
theorem missing_field_load_succeeds :
    loadLandmarks (FileResult.parsed { landmarks := some [noGeoLandmark] }) =
      Except.ok [noGeoLandmark] := rfl

/-- C5 amended: load returns the ordered record sequence whenever the file
is present, parses, and holds the "landmarks" key — even when records lack
sub-assessment fields — and fails when the file is missing, malformed, or
the key is absent; a record lacking one of the three sub-assessment fields
fails only later, when `compute_cvi` accesses the missing key. -/
theorem landmark_load_and_deferred_field_errors :
    loadLandmarks FileResult.missing = Except.error "FileNotFoundError" ∧
    loadLandmarks FileResult.malformed = Except.error "JSONDecodeError" ∧
    loadLandmarks (FileResult.parsed { landmarks := none }) =
      Except.error "KeyError: landmarks" ∧
    (∀ ls : List RawLandmark,
      loadLandmarks (FileResult.parsed { landmarks := some ls }) =
        Except.ok ls) ∧
    (∀ l : RawLandmark,
      l.geomorphology = none ∨ l.natural_buffers = none ∨
        l.engineering_structures = none →
      ∃ e, compute_cvi l = Except.error e) := by
  refine ⟨rfl, rfl, rfl, fun ls => rfl, ?_⟩
  intro l h
  rcases h with h | h | h
  · exact ⟨"KeyError: geomorphology", by simp [compute_cvi, h]⟩
  · cases hg : l.geomorphology with
    | none => exact ⟨"KeyError: geomorphology", by simp [compute_cvi, hg]⟩
    | some g =>
      exact ⟨"KeyError: natural_buffers", by simp [compute_cvi, hg, h]⟩
  · cases hg : l.geomorphology with
    | none => exact ⟨"KeyError: geomorphology", by simp [compute_cvi, hg]⟩
    | some g =>
      cases hn : l.natural_buffers with
      | none => exact ⟨"KeyError: natural_buffers", by simp [compute_cvi, hg, hn]⟩
      | some n =>
        exact ⟨"KeyError: engineering_structures",
          by simp [compute_cvi, hg, hn, h]⟩

/-- Witness for C5's amended claim at a well-formed store and a record with
a missing field. -/
theorem landmark_load_and_deferred_field_errors_witness :
    loadLandmarks (FileResult.parsed { landmarks := some [] }) =
      Except.ok [] ∧
    ∃ e, compute_cvi noGeoLandmark = Except.error e :=
  ⟨landmark_load_and_deferred_field_errors.2.2.2.1 [],
   landmark_load_and_deferred_field_errors.2.2.2.2 noGeoLandmark (Or.inl rfl)⟩

/-! ### C9: polygon drawing -/

/-- C9: every successfully drawn polygon is filled, colored by
`get_color (compute_cvi l)`, has fixed fill opacity 0.6 and a black
outline, uses the landmark's boundary ring as its locations, and the
selected landmark's outline weight (4) is strictly greater than the weight
(1) of every other landmark. -/
theorem polygons_colored_by_cvi (ls : List RawLandmark)
    (polys : List (String × List (ℚ × ℚ))) (sel : Option String)
    (out : List Polygon) (h : renderPolygons polys sel ls = Except.ok out) :
    (∀ (i : ℕ) (l : RawLandmark), ls[i]? = some l →
      ∃ (cvi : ℚ) (poly : Polygon),
        compute_cvi l = Except.ok cvi ∧
        out[i]? = some poly ∧
        poly.fill = true ∧
        poly.fill_color = (get_color cvi).pyName ∧
        poly.fill_opacity = 6 / 10 ∧
        poly.color = "black" ∧
        poly.weight = (if some l.name = sel then 4 else 1) ∧
        ∃ coords, List.lookup l.name polys = some coords ∧
          poly.locations = coords) ∧
    (∀ (i j : ℕ) (li lj : RawLandmark) (p1 p2 : Polygon),
      ls[i]? = some li → ls[j]? = some lj →
      out[i]? = some p1 → out[j]? = some p2 →
      some li.name = sel → some lj.name ≠ sel →
      p2.weight < p1.weight) := by
  have hs := (renderPolygons_ok_spec polys sel ls out h).2
  constructor
  · intro i l hi
    obtain ⟨cvi, coords, h1, h2, h3⟩ := hs i l hi
    exact ⟨cvi, _, h1, h3, rfl, rfl, rfl, rfl, rfl, coords, h2, rfl⟩
  · intro i j li lj p1 p2 hli hlj hp1 hp2 hsel hnsel
    obtain ⟨cvi1, coords1, _, _, h31⟩ := hs i li hli
    obtain ⟨cvi2, coords2, _, _, h32⟩ := hs j lj hlj
    rw [hp1] at h31
    rw [hp2] at h32
    simp only [Option.some.injEq] at h31 h32
    subst h31
    subst h32
    simp [hsel, hnsel]

/-- The polygon emitted for `sample435` when it is the selected landmark. -/
def samplePolygonSel : Polygon :=
  { locations := sampleRing, fill := true, fill_color := "green",
    fill_opacity := 6 / 10, color := "black", weight := 4 }

/-- Witness for C9 on the sample store with "Sample" selected. -/
theorem polygons_colored_by_cvi_witness :
    ∃ (cvi : ℚ) (poly : Polygon),
      compute_cvi sample435 = Except.ok cvi ∧
      ([samplePolygonSel] : List Polygon)[0]? = some poly ∧
      poly.fill = true ∧
      poly.fill_color = (get_color cvi).pyName ∧
      poly.fill_opacity = 6 / 10 ∧
      poly.color = "black" ∧
      poly.weight = (if some sample435.name = some "Sample" then 4 else 1) ∧
      ∃ coords, List.lookup sample435.name samplePolys = some coords ∧
        poly.locations = coords :=
  (polygons_colored_by_cvi [sample435] samplePolys (some "Sample")
    [samplePolygonSel] (by with_unfolding_all decide)).1 0 sample435 rfl

/-! ### C6: map center and zoom -/

/-- C6: with no selection the map centers on the fixed default coordinate
with the default zoom; with a selected landmark the map centers on the
centroid of its boundary points — the mean latitude paired with the mean
longitude — at the fixed closer zoom level 15 > 13.5. -/
theorem map_center_default_or_centroid
    (landmarks : List RawLandmark) (polys : List (String × List (ℚ × ℚ)))
    (nm : String) (sl : RawLandmark) (cvi : ℚ) (coords : List (ℚ × ℚ))
    (hf : landmarks.find? (fun l => l.name == nm) = some sl)
    (hc : compute_cvi sl = Except.ok cvi)
    (hk : List.lookup nm polys = some coords)
    (hne : coords ≠ []) :
    mapView landmarks polys none = Except.ok (defaultCenter, defaultZoom) ∧
    mapView landmarks polys (some nm) =
      Except.ok (specCentroid coords, selectedZoomLevel) ∧
    defaultZoom < selectedZoomLevel := by
  refine ⟨rfl, ?_, by with_unfolding_all decide⟩
  simp [mapView, hf, hc, hk, hne, specCentroid]

/-- Witness for C6 on the sample store, selecting "Sample". -/
theorem map_center_default_or_centroid_witness :
    mapView [sample435] samplePolys none =
      Except.ok (defaultCenter, defaultZoom) ∧
    mapView [sample435] samplePolys (some "Sample") =
      Except.ok (specCentroid sampleRing, selectedZoomLevel) ∧
    defaultZoom < selectedZoomLevel :=
  map_center_default_or_centroid [sample435] samplePolys "Sample" sample435
    4 sampleRing rfl (by with_unfolding_all decide) rfl (by decide)

/-! ### C8: image gallery -/

/-- C8: for a selected landmark the gallery shows the "no images" notice
when the image list is empty, and otherwise lays the images out in load
order in a fixed three-column grid — image `idx` in column `idx % 3`, each
captioned with the landmark name — so 4 images occupy columns 0, 1, 2, 0
(rows of 3 and 1). -/
theorem gallery_notice_or_grid :
    (∀ (l : RawLandmark) (nm : String), l.images.getD [] = [] →
      renderGallery l nm =
        GalleryView.notice "No images available for this landmark.") ∧
    (∀ (l : RawLandmark) (nm : String) (imgs : List String),
      l.images = some imgs → imgs ≠ [] →
      renderGallery l nm =
        GalleryView.grid (imgs.enum.map (fun ie => (ie.1 % 3, ie.2, nm)))) ∧
    (∀ (l : RawLandmark) (nm : String),
      l.images = some ["a.jpg", "b.jpg", "c.jpg", "d.jpg"] →
      renderGallery l nm = GalleryView.grid
        [(0, "a.jpg", nm), (1, "b.jpg", nm), (2, "c.jpg", nm),
         (0, "d.jpg", nm)]) := by
  refine ⟨?_, ?_, ?_⟩
  · intro l nm h
    simp [renderGallery, h]
  · intro l nm imgs h hne
    simp [renderGallery, h, hne]
  · intro l nm h
    unfold renderGallery
    rw [h]
    rfl

/-- A landmark record with four images. -/
def galleryLandmark : RawLandmark :=
  { name := "Gallery", geomorphology := none, natural_buffers := none,
    engineering_structures := none,
    images := some ["a.jpg", "b.jpg", "c.jpg", "d.jpg"] }

/-- A landmark record with no images key. -/
def noImagesLandmark : RawLandmark :=
  { name := "NoImages", geomorphology := none, natural_buffers := none,
    engineering_structures := none, images := none }

/-- Witness for C8 at a record with no images and one with 4 images. -/
theorem gallery_notice_or_grid_witness :
    renderGallery noImagesLandmark "NoImages" =
      GalleryView.notice "No images available for this landmark." ∧
    renderGallery galleryLandmark "Gallery" = GalleryView.grid
      [(0, "a.jpg", "Gallery"), (1, "b.jpg", "Gallery"),
       (2, "c.jpg", "Gallery"), (0, "d.jpg", "Gallery")] :=
  ⟨gallery_notice_or_grid.1 noImagesLandmark "NoImages" rfl,
   gallery_notice_or_grid.2.2 galleryLandmark "Gallery" rfl⟩

end Tacloban
